import Mathlib

/-!
Shallow embedding of the blind-app comment-like toggle handler
(`src/app/api/like-comment/route.ts`) and of the transactional email helpers
(`sendEmail` / `sendNodeMailerEmail`), together with proofs of the specified
properties.

The relational store is modelled as explicit lists of rows.  Each Prisma call
used by the handler becomes a total Lean function on the store; calls that can
fail at the database level return `Except DbError`, where `DbError.known`
models `Prisma.PrismaClientKnownRequestError` (carrying the Prisma error code
such as "P2025"/"P2003" and a message) and `DbError.jsError` models a plain
thrown JavaScript `Error` (carrying only a message).  The `$transaction` block
is the function `runLikeTransaction`; atomicity (rollback on any thrown error)
is modelled by the handler keeping the pre-transaction store whenever the
transaction returns an error.
-/

namespace BlindApp

/-- A `Comment` row: identifier, parent post identifier, author identifier. -/
structure Comment where
  id : String
  postId : String
  authorId : String
deriving DecidableEq

/-- A `Post` row, restricted to the fields this handler touches. -/
structure Post where
  id : String
  engagementScore : Int
deriving DecidableEq

/-- A `Notification` row, with the fields the handler writes. -/
structure Notification where
  userId : String
  message : String
  type : String
  commentId : String
  actorId : String
deriving DecidableEq

/-- The relational store: `users` models the `User` table (only ids are
needed, for foreign-key checks), `commentLikes` is the composite-keyed
`(commentId, userId)` relation. -/
structure Store where
  users : List String
  comments : List Comment
  posts : List Post
  commentLikes : List (String × String)
  notifications : List Notification
deriving DecidableEq

/-- Errors thrown inside the transaction: either a plain JavaScript `Error`
(as thrown by `throw new Error("COMMENT_NOT_FOUND")`) or a
`PrismaClientKnownRequestError` with a Prisma error code. -/
inductive DbError where
  | jsError (message : String)
  | known (code : String) (message : String)
deriving DecidableEq

/-- The `.message` property of the thrown error (both variants are
`instanceof Error` in JavaScript). -/
def DbError.message : DbError → String
  | .jsError m => m
  | .known _ m => m

/-- The `LikeCommentResponse` interface of the route. -/
structure LikeCommentResponse where
  liked : Bool
  likeCount : Nat
deriving DecidableEq

/-- The `ENGAGEMENT_SCORES.COMMENT_LIKE` constant from the route. -/
def ENGAGEMENT_SCORES_COMMENT_LIKE : Int := 1

/-- Message carried by a Prisma P2025 (required record not found) error. -/
def P2025_MSG : String :=
  "An operation failed because it depends on one or more records that were required but not found."

/-- Message carried by a Prisma P2002 (unique constraint) error. -/
def P2002_MSG : String := "Unique constraint failed on the fields: (commentId,userId)"

/-- Message carried by a Prisma P2003 (foreign key constraint) error. -/
def P2003_MSG : String := "Foreign key constraint failed on the field"

/-- The composite-key predicate for `commentId_userId`. -/
def pairMatch (commentId userId : String) : String × String → Bool :=
  fun l => l.1 == commentId && l.2 == userId

/-- Models `tx.comment.findUnique` with the comment id as the where-clause. -/
def comment_findUnique (s : Store) (commentId : String) : Option Comment :=
  s.comments.find? (fun c => c.id == commentId)

/-- Models `tx.commentLike.findUnique` keyed by `commentId_userId`. -/
def commentLike_findUnique (s : Store) (commentId userId : String) :
    Option (String × String) :=
  s.commentLikes.find? (pairMatch commentId userId)

/-- Models `tx.commentLike.delete` keyed by `commentId_userId`: removes the row,
or fails with Prisma code P2025 when no such row exists. -/
def commentLike_delete (s : Store) (commentId userId : String) : Except DbError Store :=
  if s.commentLikes.any (pairMatch commentId userId) then
    .ok { s with commentLikes := s.commentLikes.eraseP (pairMatch commentId userId) }
  else
    .error (.known "P2025" P2025_MSG)

/-- Models `tx.commentLike.create` with data `(commentId, userId)`: fails with P2002
if the composite key already exists, with P2003 if a foreign key (the user or
the comment) is missing, and otherwise inserts the row. -/
def commentLike_create (s : Store) (commentId userId : String) : Except DbError Store :=
  if s.commentLikes.any (pairMatch commentId userId) then
    .error (.known "P2002" P2002_MSG)
  else if s.users.contains userId && s.comments.any (fun c => c.id == commentId) then
    .ok { s with commentLikes := (commentId, userId) :: s.commentLikes }
  else
    .error (.known "P2003" P2003_MSG)

/-- The row-level effect of `post.update` with an atomic
increment/decrement of `engagementScore` by `delta`. -/
def postUpdFun (postId : String) (delta : Int) : Post → Post :=
  fun p =>
    if p.id == postId then { p with engagementScore := p.engagementScore + delta } else p

/-- Apply `postUpdFun` across the `Post` table. -/
def postsUpd (posts : List Post) (postId : String) (delta : Int) : List Post :=
  posts.map (postUpdFun postId delta)

/-- Models `tx.post.update` with an atomic increment or decrement of
`engagementScore`: fails with P2025 when the post is absent. -/
def post_update (s : Store) (postId : String) (delta : Int) : Except DbError Store :=
  if s.posts.any (fun p => p.id == postId) then
    .ok { s with posts := postsUpd s.posts postId delta }
  else
    .error (.known "P2025" P2025_MSG)

/-- The notification row the like path writes for comment `c` liked by
`userId`. -/
def likeNote (c : Comment) (userId : String) : Notification :=
  { userId := c.authorId
    message := "Your comment received a new like."
    type := "COMMENT_LIKE"
    commentId := c.id
    actorId := userId }

/-- Models `tx.notification.create`: fails with P2003 when a referenced user or
comment does not exist, otherwise appends the row. -/
def notification_create (s : Store) (n : Notification) : Except DbError Store :=
  if s.users.contains n.userId && s.users.contains n.actorId
      && s.comments.any (fun c => c.id == n.commentId) then
    .ok { s with notifications := s.notifications ++ [n] }
  else
    .error (.known "P2003" P2003_MSG)

/-- Models `tx.commentLike.count` filtered by `commentId`. -/
def commentLike_count (s : Store) (commentId : String) : Nat :=
  s.commentLikes.countP (fun l => l.1 == commentId)

/-- The `prisma.$transaction` callback of the route (lines 46-118 of
`route.ts`): verify the comment exists, branch on an existing like
(delete + decrement vs create + increment + conditional notification),
then count the likes on the post-mutation state. -/
def runLikeTransaction (commentId userId : String) (s : Store) :
    Except DbError (LikeCommentResponse × Store) :=
  match comment_findUnique s commentId with
  | none => .error (.jsError "COMMENT_NOT_FOUND")
  | some comment =>
    match commentLike_findUnique s commentId userId with
    | some _ =>
      match commentLike_delete s commentId userId with
      | .error e => .error e
      | .ok s1 =>
        match post_update s1 comment.postId (-ENGAGEMENT_SCORES_COMMENT_LIKE) with
        | .error e => .error e
        | .ok s2 =>
          .ok ({ liked := false, likeCount := commentLike_count s2 commentId }, s2)
    | none =>
      match commentLike_create s commentId userId with
      | .error e => .error e
      | .ok s1 =>
        match post_update s1 comment.postId ENGAGEMENT_SCORES_COMMENT_LIKE with
        | .error e => .error e
        | .ok s2 =>
          match (if comment.authorId != userId
                 then notification_create s2 (likeNote comment userId)
                 else .ok s2) with
          | .error e => .error e
          | .ok s3 =>
            .ok ({ liked := true, likeCount := commentLike_count s3 commentId }, s3)

/-- Body of an HTTP response: either the success payload or an error object. -/
inductive ResponseBody where
  | likeResult (liked : Bool) (likeCount : Nat)
  | errorMsg (msg : String)
deriving DecidableEq

/-- An HTTP response as produced by `NextResponse.json`. -/
structure ApiResponse where
  status : Nat
  body : ResponseBody
deriving DecidableEq

/-- The `catch` block of the route (lines 121-148): the sentinel message
check (any `Error` whose message is "COMMENT_NOT_FOUND" maps to 404), then
the Prisma error-code dispatch (P2025 to 404, P2003 to 400), and finally the
generic 500. -/
def catchResponse (e : DbError) : ApiResponse :=
  if e.message == "COMMENT_NOT_FOUND" then
    { status := 404, body := .errorMsg "Comment not found" }
  else
    match e with
    | .known code _ =>
      if code == "P2025" then { status := 404, body := .errorMsg "Comment or post not found" }
      else if code == "P2003" then
        { status := 400, body := .errorMsg "Invalid comment or user reference" }
      else { status := 500, body := .errorMsg "Internal Server Error" }
    | .jsError _ => { status := 500, body := .errorMsg "Internal Server Error" }

/-- Observable outcome of one `POST` invocation: the HTTP response, the store
after the request (unchanged unless the transaction committed), and whether
the `prisma.$transaction` call was reached. -/
structure PostOutcome where
  response : ApiResponse
  store : Store
  txAttempted : Bool
deriving DecidableEq

/-- The `POST` handler.  `body` is the outcome of `await req.json()` followed
by reading `commentId`: `.error m` models `req.json()` throwing an error with
message `m` (caught by the outer `catch`), `.ok none` a JSON body without a
`commentId` field, `.ok (some c)` a body with `commentId: c` (the `!commentId` check of the code also rejects the empty string).  `auth` is the result of
`getAuthenticatedUserId()`.  The `commentId` validation is checked before
`auth`, as in the source (the check is repeated in both `auth` branches,
which yields the same outcome).  A transaction error rolls back: the handler
keeps the pre-transaction store. -/
def POST : Except String (Option String) → Option String → Store → PostOutcome
  | .error msg, _, s =>
    { response := catchResponse (.jsError msg), store := s, txAttempted := false }
  | .ok none, _, s =>
    { response := { status := 400, body := .errorMsg "Missing commentId" },
      store := s, txAttempted := false }
  | .ok (some commentId), none, s =>
    if commentId == "" then
      { response := { status := 400, body := .errorMsg "Missing commentId" },
        store := s, txAttempted := false }
    else
      { response := { status := 401, body := .errorMsg "Authentication required" },
        store := s, txAttempted := false }
  | .ok (some commentId), some userId, s =>
    if commentId == "" then
      { response := { status := 400, body := .errorMsg "Missing commentId" },
        store := s, txAttempted := false }
    else
      match runLikeTransaction commentId userId s with
      | .ok (r, s') =>
        { response := { status := 200, body := .likeResult r.liked r.likeCount },
          store := s', txAttempted := true }
      | .error e =>
        { response := catchResponse e, store := s, txAttempted := true }

/-! ### Email helpers (`sendEmail`, `sendNodeMailerEmail`) -/

/-- The `body` object of a SendGrid API error response. -/
structure SgBody where
  errors : List String
deriving DecidableEq

/-- The `response` object attached to a SendGrid API error. -/
structure SgResponse where
  body : SgBody
deriving DecidableEq

/-- An error rejected by `sgMail.send`: SendGrid API failures carry a
`response` object, while e.g. network-level failures carry none (the
property is `undefined`). -/
structure SgError where
  response : Option SgResponse
deriving DecidableEq

/-- Models `sendEmail(to, subject, html, text?)`.  `sgSendOutcome` is the outcome of
the `sgMail.send(msg)` call on the message built from the arguments.  On
rejection the catch block evaluates `(e as any).response.body.errors` for
`console.table`; when `e.response` is `undefined` that member access itself
throws a `TypeError`, which propagates to the caller. -/
def sendEmail (toAddr subject html : String) (text : Option String)
    (sgSendOutcome : Except SgError Unit) : Except String Unit :=
  match sgSendOutcome with
  | .ok _ => .ok ()
  | .error e =>
    match e.response with
    | some _ => .ok ()
    | none => .error "TypeError: Cannot read properties of undefined (reading body)"

/-- Models `sendNodeMailerEmail(to, subject, html, text?)`.  `verifyOutcome` and
`sendOutcome` are the outcomes of `transporter.verify()` and
`transporter.sendMail(...)`; any rejection is caught and logged with
`console.error`, so the function always returns normally. -/
def sendNodeMailerEmail (toAddr subject html : String) (text : Option String)
    (verifyOutcome sendOutcome : Except String Unit) : Except String Unit :=
  match verifyOutcome with
  | .error _ => .ok ()
  | .ok _ =>
    match sendOutcome with
    | .error _ => .ok ()
    | .ok _ => .ok ()

/-! ### Derived observations on the store -/

/-- Whether `(commentId, userId)` is currently a like row (the
`existingLike` test of the route). -/
def likedBy (s : Store) (commentId userId : String) : Bool :=
  (commentLike_findUnique s commentId userId).isSome

/-- Number of like rows for the composite key `(commentId, userId)`; the
database uniqueness invariant is `pairCount s c u ≤ 1`. -/
def pairCount (s : Store) (commentId userId : String) : Nat :=
  s.commentLikes.countP (pairMatch commentId userId)

/-- Engagement score of the post `postId` in a post table, when present. -/
def getScoreL (posts : List Post) (postId : String) : Option Int :=
  (posts.find? (fun p => p.id == postId)).map (fun p => p.engagementScore)

/-- Engagement score of post `postId` in the store, when present. -/
def getScore? (s : Store) (postId : String) : Option Int :=
  getScoreL s.posts postId

/-- Parent post of the comment `commentId`, when the comment exists. -/
def commentPost (s : Store) (commentId : String) : Option String :=
  (comment_findUnique s commentId).map (fun c => c.postId)

/-- Run a sequence of toggle operations `(commentId, userId)` in order,
failing as soon as one fails. -/
def runToggles : List (String × String) → Store →
    Except DbError (List LikeCommentResponse × Store)
  | [], s => .ok ([], s)
  | op :: ops, s =>
    match runLikeTransaction op.1 op.2 s with
    | .error e => .error e
    | .ok (r, s1) =>
      match runToggles ops s1 with
      | .error e => .error e
      | .ok (rs, s2) => .ok (r :: rs, s2)

/-- Number of like-path responses minus number of unlike-path responses. -/
def netLikes (rs : List LikeCommentResponse) : Int :=
  (rs.countP (fun r => r.liked) : Int) - (rs.countP (fun r => !r.liked) : Int)

/-! ### List lemmas used by the proofs -/

theorem find?_isSome_eq_any {α : Type} (p : α → Bool) (l : List α) :
    (l.find? p).isSome = l.any p := by
  induction l with
  | nil => rfl
  | cons a t ih =>
    cases h : p a
    · rw [List.find?_cons_of_neg _ (by simp [h]), List.any_cons, h, ih]
      simp
    · rw [List.find?_cons_of_pos _ h, List.any_cons, h]
      rfl

theorem countP_eraseP_succ {α : Type} (p q : α → Bool)
    (hpq : ∀ x, p x = true → q x = true) (l : List α) (hany : l.any p = true) :
    (l.eraseP p).countP q + 1 = l.countP q := by
  induction l with
  | nil => cases hany
  | cons a t ih =>
    cases hpa : p a
    · rw [List.eraseP_cons_of_neg (by simp [hpa]), List.countP_cons, List.countP_cons]
      have hat : t.any p = true := by simpa [List.any_cons, hpa] using hany
      have := ih hat
      omega
    · rw [List.eraseP_cons_of_pos hpa, List.countP_cons, if_pos (hpq a hpa)]

theorem one_le_countP_of_any {α : Type} (p : α → Bool) (l : List α)
    (hany : l.any p = true) : 1 ≤ l.countP p := by
  induction l with
  | nil => cases hany
  | cons a t ih =>
    rw [List.countP_cons]
    cases hpa : p a
    · have hat : t.any p = true := by simpa [List.any_cons, hpa] using hany
      have := ih hat
      omega
    · simp

theorem countP_mono_pred {α : Type} (p q : α → Bool)
    (hpq : ∀ x, p x = true → q x = true) (l : List α) :
    l.countP p ≤ l.countP q := by
  induction l with
  | nil => exact Nat.le_refl 0
  | cons a t ih =>
    have h1 : (if p a = true then 1 else 0) ≤ (if q a = true then 1 else 0) := by
      cases hpa : p a
      · simp
      · simp [hpq a hpa]
    rw [List.countP_cons, List.countP_cons]
    omega

theorem eraseP_of_any_eq_false {α : Type} (p : α → Bool) (l : List α)
    (hany : l.any p = false) : l.eraseP p = l := by
  induction l with
  | nil => rfl
  | cons a t ih =>
    have hpa : p a = false := by
      cases h : p a
      · rfl
      · rw [List.any_cons, h] at hany; cases hany
    have hat : t.any p = false := by simpa [List.any_cons, hpa] using hany
    rw [List.eraseP_cons_of_neg (by simp [hpa]), ih hat]

theorem any_eraseP_eq_false {α : Type} (p : α → Bool) (l : List α)
    (huniq : l.countP p ≤ 1) : (l.eraseP p).any p = false := by
  cases hany : l.any p
  · rw [eraseP_of_any_eq_false p l hany]
    exact hany
  · have h1 := countP_eraseP_succ p p (fun _ h => h) l hany
    cases h2 : (l.eraseP p).any p
    · rfl
    · have := one_le_countP_of_any p _ h2
      omega

theorem find?_map_of_id_pred {α : Type} (f : α → α) (p : α → Bool)
    (hf : ∀ x, p (f x) = p x) (l : List α) :
    (l.map f).find? p = (l.find? p).map f := by
  induction l with
  | nil => rfl
  | cons a t ih =>
    rw [List.map_cons]
    cases h : p a
    · rw [List.find?_cons_of_neg _ (by simp [hf, h]),
        List.find?_cons_of_neg _ (by simp [h]), ih]
    · rw [List.find?_cons_of_pos _ (by simp [hf, h]),
        List.find?_cons_of_pos _ h]
      rfl

theorem postUpdFun_id (postId : String) (delta : Int) (p : Post) :
    (postUpdFun postId delta p).id = p.id := by
  unfold postUpdFun
  split <;> rfl

theorem postUpdFun_cancel (postId : String) (d e : Int) (hde : d + e = 0) (p : Post) :
    postUpdFun postId e (postUpdFun postId d p) = p := by
  cases p with
  | mk i sc =>
    unfold postUpdFun
    cases h : (i == postId)
    · simp [h]
    · simp [h]
      omega

theorem postsUpd_cancel (l : List Post) (postId : String) (d e : Int)
    (hde : d + e = 0) : postsUpd (postsUpd l postId d) postId e = l := by
  induction l with
  | nil => rfl
  | cons a t ih =>
    unfold postsUpd at *
    rw [List.map_cons, List.map_cons, postUpdFun_cancel postId d e hde a]
    rw [ih]

theorem getScoreL_postsUpd (l : List Post) (postId q : String) (d : Int) :
    getScoreL (postsUpd l postId d) q =
      if q = postId then (getScoreL l q).map (· + d) else getScoreL l q := by
  unfold getScoreL postsUpd
  rw [find?_map_of_id_pred (postUpdFun postId d) (fun p => p.id == q)
    (fun x => by simp [postUpdFun_id])]
  cases hf : l.find? (fun p => p.id == q) with
  | none => split <;> rfl
  | some p =>
    have hid : p.id = q := by
      have := List.find?_some hf
      simpa [beq_iff_eq] using this
    by_cases hqp : q = postId
    · rw [if_pos hqp]
      simp only [Option.map_some']
      unfold postUpdFun
      rw [if_pos (show (p.id == postId) = true from beq_iff_eq.mpr (hid.trans hqp))]
    · rw [if_neg hqp]
      simp only [Option.map_some']
      unfold postUpdFun
      rw [if_neg (show ¬((p.id == postId) = true) from by
        simp only [beq_iff_eq, hid]
        exact hqp)]

/-! ### Characterization of a successful toggle -/

/-- Complete description of the store after a successful run of the
transaction: the comment must exist, and either the unlike path ran (the like
row is erased, the parent post is decremented, no notification) or the like
path ran (the like row is prepended, the parent post is incremented, and a
notification is appended exactly when the liker is not the author). -/
theorem toggle_ok_spec {commentId userId : String} {s : Store}
    {r : LikeCommentResponse} {s' : Store}
    (h : runLikeTransaction commentId userId s = .ok (r, s')) :
    ∃ c, comment_findUnique s commentId = some c ∧
      s'.comments = s.comments ∧ s'.users = s.users ∧
      r.likeCount = commentLike_count s' commentId ∧
      ((likedBy s commentId userId = true ∧ r.liked = false ∧
        s'.commentLikes = s.commentLikes.eraseP (pairMatch commentId userId) ∧
        s'.posts = postsUpd s.posts c.postId (-1) ∧
        s'.notifications = s.notifications) ∨
       (likedBy s commentId userId = false ∧ r.liked = true ∧
        s'.commentLikes = (commentId, userId) :: s.commentLikes ∧
        s'.posts = postsUpd s.posts c.postId 1 ∧
        s'.notifications = (if c.authorId != userId
          then s.notifications ++ [likeNote c userId]
          else s.notifications))) := by
  unfold runLikeTransaction at h
  split at h
  · exact Except.noConfusion h
  next c hc =>
    refine ⟨c, hc, ?_⟩
    split at h
    next x hl =>
      -- unlike path
      have hliked : likedBy s commentId userId = true := by
        unfold likedBy
        rw [hl]
        rfl
      split at h
      · exact Except.noConfusion h
      next s1 hdel =>
        unfold commentLike_delete at hdel
        split at hdel
        next hany =>
          have hs1 := Except.ok.inj hdel
          subst hs1
          split at h
          · exact Except.noConfusion h
          next s2 hupd =>
            unfold post_update at hupd
            split at hupd
            next hpany =>
              have hs2 := Except.ok.inj hupd
              subst hs2
              have hp := Except.ok.inj h
              injection hp with hr hs
              subst hr
              subst hs
              exact ⟨rfl, rfl, rfl, Or.inl ⟨hliked, rfl, rfl, rfl, rfl⟩⟩
            · exact Except.noConfusion hupd
        · exact Except.noConfusion hdel
    next hl =>
      -- like path
      have hliked : likedBy s commentId userId = false := by
        unfold likedBy
        rw [hl]
        rfl
      split at h
      · exact Except.noConfusion h
      next s1 hcr =>
        unfold commentLike_create at hcr
        split at hcr
        · exact Except.noConfusion hcr
        next hnodup =>
          split at hcr
          next hfk =>
            have hs1 := Except.ok.inj hcr
            subst hs1
            split at h
            · exact Except.noConfusion h
            next s2 hupd =>
              unfold post_update at hupd
              split at hupd
              next hpany =>
                have hs2 := Except.ok.inj hupd
                subst hs2
                split at h
                · exact Except.noConfusion h
                next s3 hnote =>
                  rcases Bool.eq_false_or_eq_true (c.authorId != userId) with hna | hna
                  · rw [if_pos hna] at hnote
                    unfold notification_create at hnote
                    split at hnote
                    next hnc =>
                      have hs3 := Except.ok.inj hnote
                      subst hs3
                      have hp := Except.ok.inj h
                      injection hp with hr hs
                      subst hr
                      subst hs
                      refine ⟨rfl, rfl, rfl, Or.inr ⟨hliked, rfl, rfl, rfl, ?_⟩⟩
                      rw [if_pos hna]
                    · exact Except.noConfusion hnote
                  · rw [if_neg (show ¬((c.authorId != userId) = true) by
                      simp [hna])] at hnote
                    have hs3 := Except.ok.inj hnote
                    subst hs3
                    have hp := Except.ok.inj h
                    injection hp with hr hs
                    subst hr
                    subst hs
                    refine ⟨rfl, rfl, rfl, Or.inr ⟨hliked, rfl, rfl, rfl, ?_⟩⟩
                    rw [if_neg (show ¬((c.authorId != userId) = true) by
                      simp [hna])]
              · exact Except.noConfusion hupd
          · exact Except.noConfusion hcr

theorem likedBy_eq_any (s : Store) (commentId userId : String) :
    likedBy s commentId userId = s.commentLikes.any (pairMatch commentId userId) := by
  unfold likedBy commentLike_findUnique
  exact find?_isSome_eq_any _ _

theorem pairMatch_implies_cid (commentId userId : String) :
    ∀ x : String × String, pairMatch commentId userId x = true → (x.1 == commentId) = true := by
  intro x h
  simp only [pairMatch, Bool.and_eq_true] at h
  exact h.1

theorem pairMatch_self (commentId userId : String) :
    pairMatch commentId userId (commentId, userId) = true := by
  simp [pairMatch]

theorem countP_eq_zero_of_any_false {α : Type} (p : α → Bool) (l : List α)
    (h : l.any p = false) : l.countP p = 0 := by
  induction l with
  | nil => rfl
  | cons a t ih =>
    have hpa : p a = false := by
      cases hh : p a
      · rfl
      · rw [List.any_cons, hh] at h
        cases h
    have hat : t.any p = false := by simpa [List.any_cons, hpa] using h
    rw [List.countP_cons, if_neg (by simp [hpa]), ih hat]

/-! ### Claim theorems for the toggle transaction -/

/-- Claim C2: on a successful invocation the returned `liked` flag is the
negation of whether a CommentLike row for `(commentId, userId)` existed
before the call, and afterwards the pair has exactly one row on the like
path and zero on the unlike path (so a duplicate row is never created).
`huniq` is the composite-key uniqueness invariant of the store. -/
theorem toggle_liked_negation {commentId userId : String} {s : Store}
    {r : LikeCommentResponse} {s' : Store}
    (huniq : pairCount s commentId userId ≤ 1)
    (h : runLikeTransaction commentId userId s = .ok (r, s')) :
    r.liked = !(likedBy s commentId userId) ∧
    pairCount s' commentId userId = (if likedBy s commentId userId then 0 else 1) := by
  obtain ⟨c, hc, hcom, hus, hcnt, hcase | hcase⟩ := toggle_ok_spec h
  · obtain ⟨hlk, hrl, hlik, hp, hn⟩ := hcase
    refine ⟨by rw [hlk, hrl]; rfl, ?_⟩
    rw [hlk, if_pos rfl]
    unfold pairCount
    rw [hlik]
    apply countP_eq_zero_of_any_false
    exact any_eraseP_eq_false _ _ huniq
  · obtain ⟨hlk, hrl, hlik, hp, hn⟩ := hcase
    refine ⟨by rw [hlk, hrl]; rfl, ?_⟩
    rw [hlk, if_neg (by simp)]
    unfold pairCount
    rw [hlik, List.countP_cons, if_pos (pairMatch_self commentId userId)]
    have h0 : s.commentLikes.countP (pairMatch commentId userId) = 0 := by
      apply countP_eq_zero_of_any_false
      rw [← likedBy_eq_any]
      exact hlk
    rw [h0]

/-- Claim C3: the `likeCount` of a successful response is the exact number of
CommentLike rows for the comment in the post-mutation store, and differs from
the pre-transaction count by exactly one in the direction of the toggle (so
it is never the stale pre-transaction value). -/
theorem likeCount_exact {commentId userId : String} {s : Store}
    {r : LikeCommentResponse} {s' : Store}
    (h : runLikeTransaction commentId userId s = .ok (r, s')) :
    r.likeCount = commentLike_count s' commentId ∧
    (r.liked = true → r.likeCount = commentLike_count s commentId + 1) ∧
    (r.liked = false → r.likeCount + 1 = commentLike_count s commentId) := by
  obtain ⟨c, hc, hcom, hus, hcnt, hcase | hcase⟩ := toggle_ok_spec h
  · obtain ⟨hlk, hrl, hlik, hp, hn⟩ := hcase
    refine ⟨hcnt, ?_, ?_⟩
    · intro hl
      rw [hrl] at hl
      cases hl
    · intro _
      rw [hcnt]
      unfold commentLike_count
      rw [hlik]
      apply countP_eraseP_succ _ _ (pairMatch_implies_cid commentId userId)
      rw [← likedBy_eq_any]
      exact hlk
  · obtain ⟨hlk, hrl, hlik, hp, hn⟩ := hcase
    refine ⟨hcnt, ?_, ?_⟩
    · intro _
      rw [hcnt]
      unfold commentLike_count
      rw [hlik, List.countP_cons, if_pos (show (((commentId, userId) :
        String × String).1 == commentId) = true from beq_self_eq_true commentId)]
    · intro hl
      rw [hrl] at hl
      cases hl

/-- Claim C4: a Notification row is appended by the toggle exactly when the
call took the like path and the author of the comment differs from the requesting
user, and the row created is `likeNote c userId` (recipient = author,
actor = requesting user, type COMMENT_LIKE, referencing the comment);
nothing is appended on the unlike path or on a self-like. -/
theorem notification_iff_new_like {commentId userId : String} {s : Store}
    {c : Comment} {r : LikeCommentResponse} {s' : Store}
    (hc : comment_findUnique s commentId = some c)
    (h : runLikeTransaction commentId userId s = .ok (r, s')) :
    s'.notifications =
      (if r.liked = true ∧ c.authorId ≠ userId
       then s.notifications ++ [likeNote c userId]
       else s.notifications) := by
  obtain ⟨c', hc', hcom, hus, hcnt, hcase | hcase⟩ := toggle_ok_spec h
  · obtain ⟨hlk, hrl, hlik, hp, hn⟩ := hcase
    rw [hn, if_neg (show ¬(r.liked = true ∧ c.authorId ≠ userId) by
      simp [hrl])]
  · obtain ⟨hlk, hrl, hlik, hp, hn⟩ := hcase
    have hcc : c' = c := by
      rw [hc] at hc'
      exact (Option.some.inj hc').symm
    subst hcc
    rw [hn]
    by_cases hau : c'.authorId = userId
    · rw [if_neg (show ¬((c'.authorId != userId) = true) by simp [hau]),
        if_neg (show ¬(r.liked = true ∧ c'.authorId ≠ userId) by simp [hau])]
    · rw [if_pos (show (c'.authorId != userId) = true by simp [hau]),
        if_pos ⟨hrl, hau⟩]

/-- Claim C1: two successive successful invocations of the toggle for the
same `(commentId, userId)` restore the original like-state for that pair and
the original post table (hence the original `engagementScore` of every
post), and the second response reports the original `liked` value and the
original `likeCount`.  `huniq` is the composite-key uniqueness invariant. -/
theorem toggle_twice_restores {commentId userId : String} {s : Store}
    {r1 : LikeCommentResponse} {s1 : Store} {r2 : LikeCommentResponse} {s2 : Store}
    (huniq : pairCount s commentId userId ≤ 1)
    (h1 : runLikeTransaction commentId userId s = .ok (r1, s1))
    (h2 : runLikeTransaction commentId userId s1 = .ok (r2, s2)) :
    likedBy s2 commentId userId = likedBy s commentId userId ∧
    s2.posts = s.posts ∧
    r2.liked = likedBy s commentId userId ∧
    r2.likeCount = commentLike_count s commentId := by
  obtain ⟨c, hc, hcom1, hus1, hcnt1, hcase1 | hcase1⟩ := toggle_ok_spec h1
  · -- first call took the unlike path
    obtain ⟨hlk, hrl1, hlik1, hp1, hn1⟩ := hcase1
    have hany : s.commentLikes.any (pairMatch commentId userId) = true := by
      rw [← likedBy_eq_any]
      exact hlk
    have hlk1 : likedBy s1 commentId userId = false := by
      rw [likedBy_eq_any, hlik1]
      exact any_eraseP_eq_false _ _ huniq
    obtain ⟨c2, hc2, hcom2, hus2, hcnt2, hcase2 | hcase2⟩ := toggle_ok_spec h2
    · obtain ⟨hlk2, _, _, _, _⟩ := hcase2
      rw [hlk1] at hlk2
      cases hlk2
    · obtain ⟨_, hrl2, hlik2, hp2, hn2⟩ := hcase2
      have hceq : c2 = c := by
        have hsame : comment_findUnique s1 commentId = comment_findUnique s commentId := by
          unfold comment_findUnique
          rw [hcom1]
        rw [hsame, hc] at hc2
        exact (Option.some.inj hc2).symm
      rw [hceq] at hp2
      refine ⟨?_, ?_, ?_, ?_⟩
      · rw [hlk, likedBy_eq_any, hlik2, List.any_cons, pairMatch_self]
        rfl
      · rw [hp2, hp1]
        exact postsUpd_cancel s.posts c.postId (-1) 1 (by norm_num)
      · rw [hrl2, hlk]
      · rw [hcnt2]
        unfold commentLike_count
        rw [hlik2, hlik1, List.countP_cons,
          if_pos (show (((commentId, userId) : String × String).1 == commentId) = true
            from beq_self_eq_true commentId)]
        exact countP_eraseP_succ _ _ (pairMatch_implies_cid commentId userId) _ hany
  · -- first call took the like path
    obtain ⟨hlk, hrl1, hlik1, hp1, hn1⟩ := hcase1
    have hlk1 : likedBy s1 commentId userId = true := by
      rw [likedBy_eq_any, hlik1, List.any_cons, pairMatch_self]
      rfl
    obtain ⟨c2, hc2, hcom2, hus2, hcnt2, hcase2 | hcase2⟩ := toggle_ok_spec h2
    · obtain ⟨_, hrl2, hlik2, hp2, hn2⟩ := hcase2
      have hceq : c2 = c := by
        have hsame : comment_findUnique s1 commentId = comment_findUnique s commentId := by
          unfold comment_findUnique
          rw [hcom1]
        rw [hsame, hc] at hc2
        exact (Option.some.inj hc2).symm
      rw [hceq] at hp2
      refine ⟨?_, ?_, ?_, ?_⟩
      · rw [hlk, likedBy_eq_any, hlik2, hlik1,
          List.eraseP_cons_of_pos (pairMatch_self commentId userId), ← likedBy_eq_any]
        exact hlk
      · rw [hp2, hp1]
        exact postsUpd_cancel s.posts c.postId 1 (-1) (by norm_num)
      · rw [hrl2, hlk]
      · rw [hcnt2]
        unfold commentLike_count
        rw [hlik2, hlik1, List.eraseP_cons_of_pos (pairMatch_self commentId userId)]
    · obtain ⟨hlk2, _, _, _, _⟩ := hcase2
      rw [hlk1] at hlk2
      cases hlk2

/-- One successful toggle changes the score of the parent post of the targeted
comment by `+1` on the like path and `-1` on the unlike path, and preserves the
comment table. -/
theorem toggle_score_step {commentId userId : String} {s : Store}
    {r : LikeCommentResponse} {s' : Store} {q : String}
    (h : runLikeTransaction commentId userId s = .ok (r, s'))
    (hq : commentPost s commentId = some q) :
    getScore? s' q =
      (getScore? s q).map (· + (if r.liked = true then (1 : Int) else -1)) ∧
    s'.comments = s.comments := by
  obtain ⟨c, hc, hcom, hus, hcnt, hcase | hcase⟩ := toggle_ok_spec h
  · obtain ⟨hlk, hrl, hlik, hp, hn⟩ := hcase
    have hcq : c.postId = q := by
      unfold commentPost at hq
      rw [hc] at hq
      exact Option.some.inj hq
    refine ⟨?_, hcom⟩
    unfold getScore?
    rw [hp, getScoreL_postsUpd, if_pos hcq.symm, hrl]
    simp
  · obtain ⟨hlk, hrl, hlik, hp, hn⟩ := hcase
    have hcq : c.postId = q := by
      unfold commentPost at hq
      rw [hc] at hq
      exact Option.some.inj hq
    refine ⟨?_, hcom⟩
    unfold getScore?
    rw [hp, getScoreL_postsUpd, if_pos hcq.symm, hrl]
    simp

theorem netLikes_cons (r : LikeCommentResponse) (rs : List LikeCommentResponse) :
    netLikes (r :: rs) = (if r.liked = true then (1 : Int) else -1) + netLikes rs := by
  unfold netLikes
  rw [List.countP_cons, List.countP_cons]
  rcases Bool.eq_false_or_eq_true r.liked with hb | hb
  · rw [hb]
    push_cast
    simp
    ring
  · rw [hb]
    push_cast
    simp
    ring

/-- Claim C5: across any sequence of successful toggle operations all
targeting comments of the post `q`, the net change of the `engagementScore`
of `q` is the number of like-path calls minus the number of
unlike-path calls (each weighted 1); the score is changed by nothing else. -/
theorem engagementScore_net_delta {q : String} :
    ∀ (ops : List (String × String)) (s : Store) (rs : List LikeCommentResponse)
      (s' : Store),
      runToggles ops s = .ok (rs, s') →
      (∀ op ∈ ops, commentPost s op.1 = some q) →
      getScore? s' q = (getScore? s q).map (· + netLikes rs) := by
  intro ops
  induction ops with
  | nil =>
    intro s rs s' h hq
    have hp := Except.ok.inj h
    injection hp with h1 h2
    subst h1
    subst h2
    unfold netLikes
    cases hsc : getScore? s q <;> simp
  | cons op ops ih =>
    intro s rs s' h hq
    unfold runToggles at h
    split at h
    · exact Except.noConfusion h
    next r s1 hr =>
      split at h
      · exact Except.noConfusion h
      next rs1 s2 ht =>
        have hp := Except.ok.inj h
        injection hp with h1 h2
        subst h1
        subst h2
        obtain ⟨hstep, hcom⟩ := toggle_score_step hr (hq op (by simp))
        have hq' : ∀ o ∈ ops, commentPost s1 o.1 = some q := by
          intro o ho
          have hsame : commentPost s1 o.1 = commentPost s o.1 := by
            unfold commentPost comment_findUnique
            rw [hcom]
          rw [hsame]
          exact hq o (List.mem_cons_of_mem _ ho)
        rw [ih s1 rs1 s2 ht hq', hstep, netLikes_cons]
        cases hsc : getScore? s q
        · rfl
        · simp only [Option.map_some']
          congr 1
          ring

/-! ### Claim theorems for the HTTP handler -/

theorem runLike_not_found {commentId userId : String} {s : Store}
    (hc : comment_findUnique s commentId = none) :
    runLikeTransaction commentId userId s = .error (.jsError "COMMENT_NOT_FOUND") := by
  unfold runLikeTransaction
  rw [hc]

theorem catchResponse_status_mem (e : DbError) :
    (catchResponse e).status ∈ ([200, 400, 401, 404, 500] : List Nat) := by
  unfold catchResponse
  split
  · decide
  · split
    · split
      · decide
      · split
        · decide
        · decide
    · decide

/-- Every `PrismaClientKnownRequestError` the modelled store can raise during
the transaction carries one of the three fixed Prisma messages; in
particular its message is never the sentinel "COMMENT_NOT_FOUND". -/
theorem runLike_err_msg {commentId userId : String} {s : Store} {code msg : String}
    (h : runLikeTransaction commentId userId s = .error (.known code msg)) :
    msg = P2025_MSG ∨ msg = P2002_MSG ∨ msg = P2003_MSG := by
  unfold runLikeTransaction at h
  split at h
  · exact DbError.noConfusion (Except.error.inj h)
  next c hc =>
    split at h
    next x hl =>
      split at h
      next e hdel =>
        unfold commentLike_delete at hdel
        split at hdel
        · exact Except.noConfusion hdel
        · have he := Except.error.inj hdel
          have h2 := Except.error.inj h
          rw [← he] at h2
          injection h2 with hcode hmsg
          exact Or.inl hmsg.symm
      next s1 hdel =>
        split at h
        next e hupd =>
          unfold post_update at hupd
          split at hupd
          · exact Except.noConfusion hupd
          · have he := Except.error.inj hupd
            have h2 := Except.error.inj h
            rw [← he] at h2
            injection h2 with hcode hmsg
            exact Or.inl hmsg.symm
        next s2 hupd =>
          exact Except.noConfusion h
    next hl =>
      split at h
      next e hcr =>
        unfold commentLike_create at hcr
        split at hcr
        · have he := Except.error.inj hcr
          have h2 := Except.error.inj h
          rw [← he] at h2
          injection h2 with hcode hmsg
          exact Or.inr (Or.inl hmsg.symm)
        · split at hcr
          · exact Except.noConfusion hcr
          · have he := Except.error.inj hcr
            have h2 := Except.error.inj h
            rw [← he] at h2
            injection h2 with hcode hmsg
            exact Or.inr (Or.inr hmsg.symm)
      next s1 hcr =>
        split at h
        next e hupd =>
          unfold post_update at hupd
          split at hupd
          · exact Except.noConfusion hupd
          · have he := Except.error.inj hupd
            have h2 := Except.error.inj h
            rw [← he] at h2
            injection h2 with hcode hmsg
            exact Or.inl hmsg.symm
        next s2 hupd =>
          split at h
          next e hnote =>
            rcases Bool.eq_false_or_eq_true (c.authorId != userId) with hna | hna
            · rw [if_pos hna] at hnote
              unfold notification_create at hnote
              split at hnote
              · exact Except.noConfusion hnote
              · have he := Except.error.inj hnote
                have h2 := Except.error.inj h
                rw [← he] at h2
                injection h2 with hcode hmsg
                exact Or.inr (Or.inr hmsg.symm)
            · rw [if_neg (show ¬((c.authorId != userId) = true) by
                simp [hna])] at hnote
              exact Except.noConfusion hnote
          next s3 hnote =>
            exact Except.noConfusion h

/-- Claim C6: a missing or empty `commentId` yields a 400 validation error
and an unauthenticated caller a 401, in each case before the transaction is
reached (`txAttempted = false`) and with the store untouched. -/
theorem validation_auth_short_circuit (s : Store) (auth : Option String) :
    POST (.ok none) auth s =
      { response := { status := 400, body := .errorMsg "Missing commentId" },
        store := s, txAttempted := false } ∧
    POST (.ok (some "")) auth s =
      { response := { status := 400, body := .errorMsg "Missing commentId" },
        store := s, txAttempted := false } ∧
    (∀ commentId : String, commentId ≠ "" →
      POST (.ok (some commentId)) none s =
        { response := { status := 401, body := .errorMsg "Authentication required" },
          store := s, txAttempted := false }) := by
  refine ⟨?_, ?_, ?_⟩
  · cases auth <;> rfl
  · cases auth <;> rfl
  · intro commentId hne
    simp only [POST]
    rw [if_neg (show ¬((commentId == "") = true) by simp [hne])]

/-- Claim C7: a `commentId` that matches no comment makes the transaction
abort with the COMMENT_NOT_FOUND sentinel, which the handler maps to a 404
response; the rollback leaves the store exactly as it was (no like row,
no score change, no notification). -/
theorem comment_not_found_no_effect {commentId userId : String} {s : Store}
    (hne : commentId ≠ "")
    (hc : comment_findUnique s commentId = none) :
    POST (.ok (some commentId)) (some userId) s =
      { response := { status := 404, body := .errorMsg "Comment not found" },
        store := s, txAttempted := true } := by
  simp only [POST]
  rw [if_neg (show ¬((commentId == "") = true) by simp [hne]),
    runLike_not_found hc]
  rfl

/-- Claim C8: a referential-integrity violation (Prisma code P2003) raised by
the store inside the transaction is mapped to a 400 invalid-reference
response with the store rolled back, and the mapping of known store errors
depends only on the error code, not on the message text (the only message
the handler string-matches is its own COMMENT_NOT_FOUND sentinel, which the
store never produces). -/
theorem fk_violation_maps_400 :
    (∀ (commentId userId : String) (s : Store) (m : String),
      commentId ≠ "" →
      runLikeTransaction commentId userId s = .error (.known "P2003" m) →
      POST (.ok (some commentId)) (some userId) s =
        { response := { status := 400,
                        body := .errorMsg "Invalid comment or user reference" },
          store := s, txAttempted := true }) ∧
    (∀ code m m' : String, m ≠ "COMMENT_NOT_FOUND" → m' ≠ "COMMENT_NOT_FOUND" →
      catchResponse (.known code m) = catchResponse (.known code m')) := by
  constructor
  · intro commentId userId s m hne h
    have hm : m ≠ "COMMENT_NOT_FOUND" := by
      rcases runLike_err_msg h with h1 | h1 | h1 <;> rw [h1] <;> decide
    simp only [POST]
    rw [if_neg (show ¬((commentId == "") = true) by simp [hne]), h]
    show ({ response := catchResponse (.known "P2003" m), store := s,
            txAttempted := true } : PostOutcome) = _
    unfold catchResponse
    rw [if_neg (show ¬((DbError.message (.known "P2003" m) == "COMMENT_NOT_FOUND")
      = true) by simp [DbError.message, hm])]
    rfl
  · intro code m m' hm hm'
    unfold catchResponse
    rw [if_neg (show ¬((DbError.message (.known code m) == "COMMENT_NOT_FOUND")
        = true) by simp [DbError.message, hm]),
      if_neg (show ¬((DbError.message (.known code m') == "COMMENT_NOT_FOUND")
        = true) by simp [DbError.message, hm'])]

/-- Claim C10: a request body whose parsing throws is caught by the outer
catch and answered with the generic 500 response without touching the store
or starting a transaction (JSON parse errors never carry the handler sentinel
message COMMENT_NOT_FOUND), and every response of the handler has
one of the statuses 200, 400, 401, 404, 500. -/
theorem post_status_taxonomy :
    (∀ (msg : String) (auth : Option String) (s : Store),
      msg ≠ "COMMENT_NOT_FOUND" →
      POST (.error msg) auth s =
        { response := { status := 500, body := .errorMsg "Internal Server Error" },
          store := s, txAttempted := false }) ∧
    (∀ (body : Except String (Option String)) (auth : Option String) (s : Store),
      (POST body auth s).response.status ∈ ([200, 400, 401, 404, 500] : List Nat)) := by
  constructor
  · intro msg auth s hm
    cases auth <;>
      · simp only [POST]
        unfold catchResponse
        rw [if_neg (show ¬((DbError.message (.jsError msg) == "COMMENT_NOT_FOUND")
          = true) by simp [DbError.message, hm])]
  · intro body auth s
    cases body with
    | error msg =>
      cases auth <;>
        · simp only [POST]
          exact catchResponse_status_mem _
    | ok o =>
      cases o with
      | none =>
        cases auth <;>
          · simp only [POST]
            exact (by decide : (400 : Nat) ∈ ([200, 400, 401, 404, 500] : List Nat))
      | some commentId =>
        cases auth with
        | none =>
          simp only [POST]
          split
          · exact (by decide : (400 : Nat) ∈ ([200, 400, 401, 404, 500] : List Nat))
          · exact (by decide : (401 : Nat) ∈ ([200, 400, 401, 404, 500] : List Nat))
        | some userId =>
          simp only [POST]
          split
          · exact (by decide : (400 : Nat) ∈ ([200, 400, 401, 404, 500] : List Nat))
          · cases hr : runLikeTransaction commentId userId s with
            | ok v =>
              obtain ⟨r, s'⟩ := v
              exact (by decide : (200 : Nat) ∈ ([200, 400, 401, 404, 500] : List Nat))
            | error e =>
              exact catchResponse_status_mem e

/-! ### Claim theorem for the email helpers -/

/-- Claim C9 evidence: `sendEmail` does NOT always swallow delivery errors.
When `sgMail.send` rejects with an error carrying no `response` object (for
example a network-level failure), the member access in the catch block
`(e as any).response.body.errors` itself throws a TypeError that propagates
to the caller — contradicting the own doc comment of the function.  An error that
does carry a SendGrid `response` is swallowed, and `sendNodeMailerEmail`
swallows every rejection of `verify`/`sendMail`. -/
theorem sendEmail_throws_on_responseless_error :
    sendEmail "user@example.com" "Welcome" "<p>Hello</p>" none
        (.error { response := none }) =
      .error "TypeError: Cannot read properties of undefined (reading body)" ∧
    sendEmail "user@example.com" "Welcome" "<p>Hello</p>" none
        (.error { response := some { body := { errors := ["bad request"] } } }) =
      .ok () ∧
    (∀ verifyOutcome sendOutcome : Except String Unit,
      sendNodeMailerEmail "user@example.com" "Welcome" "<p>Hello</p>" none
        verifyOutcome sendOutcome = .ok ()) := by
  refine ⟨rfl, rfl, ?_⟩
  intro verifyOutcome sendOutcome
  cases verifyOutcome with
  | error e => rfl
  | ok u => cases sendOutcome with
    | error e => rfl
    | ok u => rfl

/-! ### Concrete witnesses

A sample store: post `p1` with score 5, a single comment `c1` on it authored
by `u1`, three users, no likes yet. -/

def Wcomment : Comment := { id := "c1", postId := "p1", authorId := "u1" }

def Wstore : Store :=
  { users := ["u1", "u2", "u3"]
    comments := [Wcomment]
    posts := [{ id := "p1", engagementScore := 5 }]
    commentLikes := []
    notifications := [] }

def Wnote : Notification :=
  { userId := "u1", message := "Your comment received a new like."
    type := "COMMENT_LIKE", commentId := "c1", actorId := "u2" }

/-- The store `Wstore` after `u2` likes `c1`. -/
def Wstore1 : Store :=
  { users := ["u1", "u2", "u3"]
    comments := [Wcomment]
    posts := [{ id := "p1", engagementScore := 6 }]
    commentLikes := [("c1", "u2")]
    notifications := [Wnote] }

/-- The store `Wstore1` after `u2` unlikes `c1` again: only the notification remains. -/
def Wstore2 : Store :=
  { users := ["u1", "u2", "u3"]
    comments := [Wcomment]
    posts := [{ id := "p1", engagementScore := 5 }]
    commentLikes := []
    notifications := [Wnote] }

theorem toggle_twice_restores_witness :
    pairCount Wstore "c1" "u2" ≤ 1 ∧
    runLikeTransaction "c1" "u2" Wstore =
      .ok ({ liked := true, likeCount := 1 }, Wstore1) ∧
    runLikeTransaction "c1" "u2" Wstore1 =
      .ok ({ liked := false, likeCount := 0 }, Wstore2) ∧
    (likedBy Wstore2 "c1" "u2" = likedBy Wstore "c1" "u2" ∧
     Wstore2.posts = Wstore.posts ∧
     ({ liked := false, likeCount := 0 } : LikeCommentResponse).liked
        = likedBy Wstore "c1" "u2" ∧
     ({ liked := false, likeCount := 0 } : LikeCommentResponse).likeCount
        = commentLike_count Wstore "c1") :=
  ⟨by decide, by rfl, by rfl,
   toggle_twice_restores (by decide) (by rfl) (by rfl)⟩

theorem toggle_liked_negation_witness :
    pairCount Wstore "c1" "u2" ≤ 1 ∧
    runLikeTransaction "c1" "u2" Wstore =
      .ok ({ liked := true, likeCount := 1 }, Wstore1) ∧
    (({ liked := true, likeCount := 1 } : LikeCommentResponse).liked
        = !(likedBy Wstore "c1" "u2") ∧
     pairCount Wstore1 "c1" "u2" = (if likedBy Wstore "c1" "u2" then 0 else 1)) :=
  ⟨by decide, by rfl, toggle_liked_negation (by decide) (by rfl)⟩

theorem likeCount_exact_witness :
    runLikeTransaction "c1" "u2" Wstore =
      .ok ({ liked := true, likeCount := 1 }, Wstore1) ∧
    (({ liked := true, likeCount := 1 } : LikeCommentResponse).likeCount
        = commentLike_count Wstore1 "c1" ∧
     (({ liked := true, likeCount := 1 } : LikeCommentResponse).liked = true →
        ({ liked := true, likeCount := 1 } : LikeCommentResponse).likeCount
          = commentLike_count Wstore "c1" + 1) ∧
     (({ liked := true, likeCount := 1 } : LikeCommentResponse).liked = false →
        ({ liked := true, likeCount := 1 } : LikeCommentResponse).likeCount + 1
          = commentLike_count Wstore "c1")) :=
  ⟨by rfl,
   @likeCount_exact "c1" "u2" Wstore { liked := true, likeCount := 1 } Wstore1
     (by rfl)⟩

theorem notification_iff_new_like_witness :
    comment_findUnique Wstore "c1" = some Wcomment ∧
    runLikeTransaction "c1" "u2" Wstore =
      .ok ({ liked := true, likeCount := 1 }, Wstore1) ∧
    Wstore1.notifications =
      (if ({ liked := true, likeCount := 1 } : LikeCommentResponse).liked = true ∧
          Wcomment.authorId ≠ "u2"
       then Wstore.notifications ++ [likeNote Wcomment "u2"]
       else Wstore.notifications) :=
  ⟨by rfl, by rfl,
   @notification_iff_new_like "c1" "u2" Wstore Wcomment
     { liked := true, likeCount := 1 } Wstore1 (by rfl) (by rfl)⟩

/-- Responses of the two-likes sequence used in the C5 witness. -/
def W5rs : List LikeCommentResponse :=
  [{ liked := true, likeCount := 1 }, { liked := true, likeCount := 2 }]

/-- Store after `u2` and then `u3` like `c1`. -/
def Wstore5 : Store :=
  { users := ["u1", "u2", "u3"]
    comments := [Wcomment]
    posts := [{ id := "p1", engagementScore := 7 }]
    commentLikes := [("c1", "u3"), ("c1", "u2")]
    notifications := [Wnote,
      { userId := "u1", message := "Your comment received a new like."
        type := "COMMENT_LIKE", commentId := "c1", actorId := "u3" }] }

theorem engagementScore_net_delta_witness :
    runToggles [("c1", "u2"), ("c1", "u3")] Wstore = .ok (W5rs, Wstore5) ∧
    getScore? Wstore5 "p1" = (getScore? Wstore "p1").map (· + netLikes W5rs) :=
  ⟨by rfl,
   engagementScore_net_delta [("c1", "u2"), ("c1", "u3")] Wstore W5rs Wstore5
     (by rfl) (by decide)⟩

theorem validation_auth_short_circuit_witness :
    POST (.ok (some "c1")) none Wstore =
      { response := { status := 401, body := .errorMsg "Authentication required" },
        store := Wstore, txAttempted := false } :=
  (validation_auth_short_circuit Wstore none).2.2 "c1" (by decide)

theorem comment_not_found_no_effect_witness :
    POST (.ok (some "nope")) (some "u2") Wstore =
      { response := { status := 404, body := .errorMsg "Comment not found" },
        store := Wstore, txAttempted := true } :=
  comment_not_found_no_effect (by decide) (by rfl)

/-- A store in which user `u2` no longer exists, so the like insert violates
the foreign key. -/
def Wstore8 : Store :=
  { users := ["u1"]
    comments := [Wcomment]
    posts := [{ id := "p1", engagementScore := 5 }]
    commentLikes := []
    notifications := [] }

theorem fk_violation_maps_400_witness :
    runLikeTransaction "c1" "u2" Wstore8 = .error (.known "P2003" P2003_MSG) ∧
    POST (.ok (some "c1")) (some "u2") Wstore8 =
      { response := { status := 400,
                      body := .errorMsg "Invalid comment or user reference" },
        store := Wstore8, txAttempted := true } ∧
    catchResponse (.known "P2999" "network hiccup") =
      catchResponse (.known "P2999" "another message") :=
  ⟨by rfl,
   fk_violation_maps_400.1 "c1" "u2" Wstore8 P2003_MSG (by decide) (by rfl),
   fk_violation_maps_400.2 "P2999" "network hiccup" "another message"
     (by decide) (by decide)⟩

theorem post_status_taxonomy_witness :
    POST (.error "Unexpected end of JSON input") none Wstore =
      { response := { status := 500, body := .errorMsg "Internal Server Error" },
        store := Wstore, txAttempted := false } :=
  post_status_taxonomy.1 "Unexpected end of JSON input" none Wstore (by decide)

end BlindApp
